import Mathlib

/-!
Verification of the ROS interface layer of `orb_slam_2_ros`
(`src/library/interface.cpp`, class `orb_slam_2_interface::OrbSlam2Interface`).

The file shallowly embeds the data model and the operations of that
translation unit: ROS message records, the `cv::Mat` view used by the map
points, the publishing methods as functions returning the list of messages
they hand to a publisher, parameter retrieval over a model of the ROS
parameter server, and the OpenCV-to-minkindr pose conversion over real
matrices.  External library calls (Eigen's angle-axis decomposition and
reconstruction, `pcl::toROSMsg`, `tf` conversions) are embedded by their
exact arithmetic on the mathematical objects they manipulate.
-/

namespace OrbSlam2

/-- A `std_msgs::Header`: sequence number, timestamp and frame id (the
timestamp is abstracted to a natural count of nanoseconds). -/
structure Header where
  seq : Nat
  stamp : Nat
  frame_id : String
deriving DecidableEq, Repr

/-- Shallow model of a `cv::Mat` of floats: its dimensions together with the
entries, row-major, as real numbers. -/
structure CvMat where
  rows : Nat
  cols : Nat
  entry : Nat → Nat → ℝ

/-- Model of `cv::Mat::empty()`: a matrix with no elements (`total() == 0`). -/
def CvMat.emptyMat (m : CvMat) : Bool :=
  m.rows * m.cols == 0

/-- Model of `mat.at<float>(i)`: element `i` of the row-major data. -/
def CvMat.atF (m : CvMat) (i : Nat) : ℝ :=
  m.entry (i / m.cols) (i % m.cols)

/-- Shallow model of `ORB_SLAM2::MapPoint`: only `GetWorldPos()` is used by
the interface, so the model keeps just that matrix. -/
structure MapPoint where
  GetWorldPos : CvMat

/-- A `pcl::PointXYZRGB`: position and color channels.  The default
constructor zero-initializes every channel. -/
structure PointXYZRGB where
  x : ℝ
  y : ℝ
  z : ℝ
  r : Nat
  g : Nat
  b : Nat

/-- The zero-initialized `pcl::PointXYZRGB` declared before the loop. -/
def pclPointDefault : PointXYZRGB :=
  { x := 0, y := 0, z := 0, r := 0, g := 0, b := 0 }

/-- A `sensor_msgs::PointCloud2` message, with the serialized point data
abstracted to the list of points it carries. -/
structure PointCloud2 where
  header : Header
  points : List PointXYZRGB

/-- The header of a freshly constructed `pcl::PointCloud`: sequence `0`,
stamp `0`, empty frame id.  `pcl::toROSMsg` copies it into the message. -/
def pclDefaultHeader : Header :=
  { seq := 0, stamp := 0, frame_id := "" }

/-- One iteration of the `for` loop of `publishPointCloud`: the state carries
the `point` variable declared outside the loop together with the cloud's
point list.  A null pointer is skipped, an entry whose world position is
empty is skipped, and otherwise all six channels of `point` are assigned and
the point is pushed onto the cloud. -/
def pointCloudLoopStep (st : PointXYZRGB × List PointXYZRGB)
    (mp : Option MapPoint) : PointXYZRGB × List PointXYZRGB :=
  match mp with
  | none => st
  | some p =>
    let worldPos := p.GetWorldPos
    if worldPos.emptyMat then st
    else
      let point : PointXYZRGB :=
        { st.1 with
          x := worldPos.atF 0, y := worldPos.atF 1, z := worldPos.atF 2,
          r := 255, g := 255, b := 255 }
      (point, st.2 ++ [point])

/-- Model of `OrbSlam2Interface::publishPointCloud`: runs the loop over the
map-point pointers, then builds the `sensor_msgs::PointCloud2` message: the
supplied header is first assigned to it, `pcl::toROSMsg` then overwrites the
whole message from the PCL cloud (including the header, from the cloud's
default header), and finally the frame id is set to `"world"`.  The returned
message is the one handed to `cloud_pub_.publish`. -/
def publishPointCloud (mapPoints : List (Option MapPoint)) (header : Header) :
    PointCloud2 :=
  let final := mapPoints.foldl pointCloudLoopStep (pclPointDefault, [])
  let cloudMsg0 : PointCloud2 := { header := header, points := [] }
  let cloudMsg1 : PointCloud2 :=
    { cloudMsg0 with header := pclDefaultHeader, points := final.2 }
  { cloudMsg1 with
    header := { cloudMsg1.header with frame_id := "world" } }

/-- The point `publishPointCloud` builds from one non-null, non-empty map
point: the first three float entries of its world position, colored white. -/
def whitePointOf (p : MapPoint) : PointXYZRGB :=
  { x := p.GetWorldPos.atF 0, y := p.GetWorldPos.atF 1, z := p.GetWorldPos.atF 2,
    r := 255, g := 255, b := 255 }

theorem pointCloudLoop_characterization (mapPoints : List (Option MapPoint)) :
    ∀ (pt : PointXYZRGB) (acc : List PointXYZRGB),
      (mapPoints.foldl pointCloudLoopStep (pt, acc)).2 =
        acc ++ mapPoints.filterMap (fun mp =>
          match mp with
          | none => none
          | some p => if p.GetWorldPos.emptyMat then none else some (whitePointOf p)) := by
  induction mapPoints with
  | nil => intro pt acc; simp
  | cons hd tl ih =>
    intro pt acc
    match hd with
    | none => simpa [pointCloudLoopStep] using ih pt acc
    | some p =>
      by_cases hP : p.GetWorldPos.emptyMat
      · simpa [pointCloudLoopStep, hP] using ih pt acc
      · simp only [List.foldl_cons, pointCloudLoopStep, hP, if_neg, Bool.false_eq_true,
          List.filterMap_cons]
        rw [ih]
        simp [whitePointOf]

/-- C1: `publishPointCloud` builds exactly one point for each non-null entry
with a non-empty world position, in input order; null pointers and empty
world positions contribute nothing; each built point takes the first three
float entries of the world position as its coordinates and is colored
`r = g = b = 255`. -/
theorem publishPointCloud_points_spec (mapPoints : List (Option MapPoint))
    (header : Header) :
    (publishPointCloud mapPoints header).points =
      mapPoints.filterMap (fun mp =>
        match mp with
        | none => none
        | some p =>
          if p.GetWorldPos.emptyMat then none
          else some
            { x := p.GetWorldPos.atF 0, y := p.GetWorldPos.atF 1,
              z := p.GetWorldPos.atF 2, r := 255, g := 255, b := 255 }) := by
  show (mapPoints.foldl pointCloudLoopStep (pclPointDefault, [])).2 = _
  rw [pointCloudLoop_characterization mapPoints pclPointDefault []]
  simp [whitePointOf]

/-- Shallow model of a minkindr `Transformation` (a rigid-body transform):
the rotation it represents, as a real 3x3 matrix, and the translation.
kindr stores the rotation as a unit quaternion; the model keeps the rotation
matrix that quaternion stands for. -/
structure Transformation where
  rotation : Matrix (Fin 3) (Fin 3) ℝ
  translation : Fin 3 → ℝ

/-- A `geometry_msgs::Transform`: rotation and translation of the transform
it carries (the quaternion wire format is abstracted to the rotation). -/
structure TransformMsg where
  rotation : Matrix (Fin 3) (Fin 3) ℝ
  translation : Fin 3 → ℝ

/-- Model of `tf::transformKindrToMsg`: packs the transformation into a
`geometry_msgs::Transform`. -/
def transformKindrToMsg (T : Transformation) : TransformMsg :=
  { rotation := T.rotation, translation := T.translation }

/-- A `geometry_msgs::TransformStamped` message. -/
structure TransformStamped where
  header : Header
  child_frame_id : String
  transform : TransformMsg

/-- A `geometry_msgs::Pose`: position and orientation. -/
structure PoseMsg where
  position : Fin 3 → ℝ
  orientation : Matrix (Fin 3) (Fin 3) ℝ

/-- Model of `tf::poseKindrToMsg`: packs the transformation into a
`geometry_msgs::Pose`. -/
def poseKindrToMsg (T : Transformation) : PoseMsg :=
  { position := T.translation, orientation := T.rotation }

/-- A `geometry_msgs::PoseStamped` message. -/
structure PoseStamped where
  header : Header
  pose : PoseMsg

/-- A `tf::StampedTransform` handed to the TF broadcaster: the transform,
the stamp and the parent and child frame ids. -/
structure StampedTransform where
  rotation : Matrix (Fin 3) (Fin 3) ℝ
  translation : Fin 3 → ℝ
  stamp : Nat
  frame_id : String
  child_frame_id : String

/-- Model of `tf::transformKindrToTF`: the `tf::Transform` is abstracted to
the rotation/translation pair it carries. -/
def transformKindrToTF (T : Transformation) : Matrix (Fin 3) (Fin 3) ℝ × (Fin 3 → ℝ) :=
  (T.rotation, T.translation)

/-- The member state of `OrbSlam2Interface` that the translation unit reads
and writes: the parameter fields and the current pose estimate `T_W_C_`. -/
structure OrbSlam2Interface where
  vocabulary_file_path : String
  settings_file_path : String
  verbose : Bool
  frame_id : String
  child_frame_id : String
  T_W_C : Transformation

/-- One `advertise` call: the message type, topic name and queue size. -/
structure AdvertiseOp where
  msgType : String
  topic : String
  queue_size : Nat
deriving DecidableEq, Repr

/-- One `createTimer` call: the period in seconds and the member callback it
is bound to. -/
structure TimerOp where
  period : ℚ
  callback : String
deriving DecidableEq, Repr

/-- Model of `OrbSlam2Interface::advertiseTopics`: the `advertise` calls it
performs, in order, and the timers it creates. -/
def advertiseTopics : List AdvertiseOp × List TimerOp :=
  ([{ msgType := "geometry_msgs/TransformStamped", topic := "transform_cam", queue_size := 1 },
    { msgType := "geometry_msgs/PoseStamped", topic := "pose_cam", queue_size := 1 },
    { msgType := "sensor_msgs/PointCloud2", topic := "keypoints_cloud", queue_size := 1 }],
   [{ period := 0.01, callback := "publishCurrentPoseAsTF" }])

/-- Model of `OrbSlam2Interface::publishCurrentPose`: the list of messages
handed to `T_pub_.publish` on one call.  The message takes the supplied
header whole, the configured child frame id, and the converted transform. -/
def publishCurrentPose (iface : OrbSlam2Interface) (T : Transformation)
    (header : Header) : List TransformStamped :=
  [{ header := header,
     child_frame_id := iface.child_frame_id,
     transform := transformKindrToMsg T }]

/-- Model of `OrbSlam2Interface::publishCurrentPoseAsPose`: the list of
messages handed to `pose_pub_.publish` on one call.  The supplied header is
assigned and then its frame id is overwritten with `"world"`. -/
def publishCurrentPoseAsPose (iface : OrbSlam2Interface) (T : Transformation)
    (header : Header) : List PoseStamped :=
  [{ header := { header with frame_id := "world" },
     pose := poseKindrToMsg T }]

/-- Model of `OrbSlam2Interface::publishCurrentPoseAsTF`, the timer
callback: the stamped transforms broadcast on one firing (stamped with the
current ROS time `now`), together with the member state after the call. -/
def publishCurrentPoseAsTF (iface : OrbSlam2Interface) (now : Nat) :
    List StampedTransform × OrbSlam2Interface :=
  ([{ rotation := (transformKindrToTF iface.T_W_C).1,
      translation := (transformKindrToTF iface.T_W_C).2,
      stamp := now,
      frame_id := iface.frame_id,
      child_frame_id := iface.child_frame_id }],
   iface)

/-- C4: `advertiseTopics` advertises exactly three channels, in order a
`TransformStamped` publisher on `transform_cam`, a `PoseStamped` publisher on
`pose_cam` and a `PointCloud2` publisher on `keypoints_cloud`, each with
queue size `1`, and creates exactly one timer, of period `1/100` of a
second, bound to the TF-publishing callback. -/
theorem advertiseTopics_spec :
    advertiseTopics.1.length = 3 ∧
    advertiseTopics.1.map AdvertiseOp.msgType =
      ["geometry_msgs/TransformStamped", "geometry_msgs/PoseStamped",
       "sensor_msgs/PointCloud2"] ∧
    advertiseTopics.1.map AdvertiseOp.topic =
      ["transform_cam", "pose_cam", "keypoints_cloud"] ∧
    (∀ op ∈ advertiseTopics.1, op.queue_size = 1) ∧
    advertiseTopics.2.length = 1 ∧
    (∀ tm ∈ advertiseTopics.2,
      tm.period = 1 / 100 ∧ tm.callback = "publishCurrentPoseAsTF") := by
  refine ⟨rfl, rfl, rfl, ?_, rfl, ?_⟩
  · intro op hop
    simp only [advertiseTopics, List.mem_cons, List.not_mem_nil, or_false] at hop
    rcases hop with h | h | h <;> subst h <;> rfl
  · intro tm htm
    simp only [advertiseTopics, List.mem_cons, List.not_mem_nil, or_false] at htm
    subst htm
    exact ⟨by norm_num, rfl⟩

/-- C5: a call of `publishCurrentPose` publishes exactly one
`TransformStamped` message; its header is the supplied header, its child
frame id the configured child frame id, and its transform the message
conversion of `T`. -/
theorem publishCurrentPose_spec (iface : OrbSlam2Interface)
    (T : Transformation) (header : Header) :
    (publishCurrentPose iface T header).length = 1 ∧
    ∀ msg ∈ publishCurrentPose iface T header,
      msg.header = header ∧
      msg.child_frame_id = iface.child_frame_id ∧
      msg.transform = transformKindrToMsg T := by
  refine ⟨rfl, ?_⟩
  intro msg hmsg
  simp only [publishCurrentPose, List.mem_singleton] at hmsg
  subst hmsg
  exact ⟨rfl, rfl, rfl⟩

/-- C6: one firing of the timer callback `publishCurrentPoseAsTF` broadcasts
exactly one stamped transform, built from the stored pose `T_W_C_`, with
parent frame the configured frame id, child frame the configured child frame
id and stamp the current time; the member state is left unchanged. -/
theorem publishCurrentPoseAsTF_spec (iface : OrbSlam2Interface) (now : Nat) :
    (publishCurrentPoseAsTF iface now).1.length = 1 ∧
    (∀ msg ∈ (publishCurrentPoseAsTF iface now).1,
      msg.rotation = iface.T_W_C.rotation ∧
      msg.translation = iface.T_W_C.translation ∧
      msg.stamp = now ∧
      msg.frame_id = iface.frame_id ∧
      msg.child_frame_id = iface.child_frame_id) ∧
    (publishCurrentPoseAsTF iface now).2 = iface := by
  refine ⟨rfl, ?_, rfl⟩
  intro msg hmsg
  simp only [publishCurrentPoseAsTF, List.mem_singleton] at hmsg
  subst hmsg
  exact ⟨rfl, rfl, rfl, rfl, rfl⟩

/-- C8: the pose message published by `publishCurrentPoseAsPose` carries
frame id `"world"` and the supplied header's stamp, whatever the configured
frame id; the cloud message published by `publishPointCloud` carries frame id
`"world"` whatever the supplied header and configured frame id; and neither
method touches the supplied header or the interface state. -/
theorem published_frame_id_world (iface : OrbSlam2Interface)
    (T : Transformation) (header : Header)
    (mapPoints : List (Option MapPoint)) :
    (∀ msg ∈ publishCurrentPoseAsPose iface T header,
      msg.header.frame_id = "world" ∧ msg.header.stamp = header.stamp) ∧
    (publishPointCloud mapPoints header).header.frame_id = "world" := by
  refine ⟨?_, rfl⟩
  intro msg hmsg
  simp only [publishCurrentPoseAsPose, List.mem_singleton] at hmsg
  subst hmsg
  exact ⟨rfl, rfl⟩

/-- A value held by the ROS parameter server. -/
inductive ParamValue where
  | str (s : String)
  | boolean (b : Bool)
  | int (n : Int)
deriving DecidableEq, Repr

/-- The ROS parameter server, as seen through `nh_private_`: a partial map
from parameter names to values. -/
def ParamServer : Type :=
  String → Option ParamValue

/-- Model of `ros::NodeHandle::getParam(key, std::string&)`: the retrieved
string, or `none` when the parameter is absent or not a string (the output
variable is then left untouched and the call returns `false`). -/
def getParamString (p : ParamServer) (key : String) : Option String :=
  match p key with
  | some (.str s) => some s
  | _ => none

/-- Model of `ros::NodeHandle::getParam(key, bool&)`. -/
def getParamBool (p : ParamServer) (key : String) : Option Bool :=
  match p key with
  | some (.boolean b) => some b
  | _ => none

/-- The field initialization of the `OrbSlam2Interface` constructor: the
verbosity and the frame ids start at the `kDefault*` constants (declared in
the interface header, outside this translation unit; the claims are
independent of their values, so they are parameters here), the path strings
start empty, and the pose starts at the identity transform. -/
def constructInterface (kDefaultVerbose : Bool)
    (kDefaultFrameId kDefaultChildFrameId : String) : OrbSlam2Interface :=
  { vocabulary_file_path := ""
    settings_file_path := ""
    verbose := kDefaultVerbose
    frame_id := kDefaultFrameId
    child_frame_id := kDefaultChildFrameId
    T_W_C := { rotation := 1, translation := fun _ => 0 } }

/-- Model of `OrbSlam2Interface::getParametersFromRos`: the two `CHECK`ed
`getParam` calls for the file paths, then the three optional `getParam`
calls, each leaving its field untouched when retrieval fails.  `none` models
a fatal `CHECK` failure. -/
def getParametersFromRos (p : ParamServer) (iface : OrbSlam2Interface) :
    Option OrbSlam2Interface :=
  match getParamString p "vocabulary_file_path" with
  | none => none
  | some vocab =>
    match getParamString p "settings_file_path" with
    | none => none
    | some settings =>
      let st1 := { iface with
        vocabulary_file_path := vocab, settings_file_path := settings }
      let st2 := match getParamBool p "verbose" with
        | none => st1
        | some v => { st1 with verbose := v }
      let st3 := match getParamString p "frame_id" with
        | none => st2
        | some f => { st2 with frame_id := f }
      let st4 := match getParamString p "child_frame_id" with
        | none => st3
        | some c => { st3 with child_frame_id := c }
      some st4

/-- The five parameter names `getParametersFromRos` reads. -/
def readParamKeys : List String :=
  ["vocabulary_file_path", "settings_file_path", "verbose", "frame_id",
   "child_frame_id"]

/-- C3: starting from the constructed state, `getParametersFromRos` fails
fatally exactly when one of the two required string parameters cannot be
retrieved; when it succeeds, every optional parameter that is absent leaves
its field at the constructor's default; and the outcome depends on no
parameter besides the two required and three optional names. -/
theorem getParametersFromRos_spec (p : ParamServer) (kDefaultVerbose : Bool)
    (kDefaultFrameId kDefaultChildFrameId : String) :
    (getParametersFromRos p
        (constructInterface kDefaultVerbose kDefaultFrameId kDefaultChildFrameId) = none ↔
      getParamString p "vocabulary_file_path" = none ∨
      getParamString p "settings_file_path" = none) ∧
    (∀ res, getParametersFromRos p
        (constructInterface kDefaultVerbose kDefaultFrameId kDefaultChildFrameId) = some res →
      (p "verbose" = none → res.verbose = kDefaultVerbose) ∧
      (p "frame_id" = none → res.frame_id = kDefaultFrameId) ∧
      (p "child_frame_id" = none → res.child_frame_id = kDefaultChildFrameId)) ∧
    (∀ q : ParamServer, (∀ key ∈ readParamKeys, p key = q key) →
      ∀ iface, getParametersFromRos p iface = getParametersFromRos q iface) := by
  refine ⟨?_, ?_, ?_⟩
  · unfold getParametersFromRos
    cases hv : getParamString p "vocabulary_file_path" with
    | none => simp [hv]
    | some vocab =>
      cases hs : getParamString p "settings_file_path" with
      | none => simp [hv, hs]
      | some settings => simp [hv, hs]
  · intro res hres
    unfold getParametersFromRos at hres
    cases hv : getParamString p "vocabulary_file_path" with
    | none => rw [hv] at hres; exact absurd hres (by simp)
    | some vocab =>
      cases hs : getParamString p "settings_file_path" with
      | none => rw [hv, hs] at hres; exact absurd hres (by simp)
      | some settings =>
        rw [hv, hs] at hres
        simp only [Option.some.injEq] at hres
        subst hres
        refine ⟨?_, ?_, ?_⟩
        · intro hb
          have hb2 : getParamBool p "verbose" = none := by simp [getParamBool, hb]
          cases hf2 : getParamString p "frame_id" <;>
            cases hc2 : getParamString p "child_frame_id" <;>
            simp [hb2, hf2, hc2, constructInterface]
        · intro hf
          have hf2 : getParamString p "frame_id" = none := by
            simp [getParamString, hf]
          cases hb2 : getParamBool p "verbose" <;>
            cases hc2 : getParamString p "child_frame_id" <;>
            simp [hb2, hf2, hc2, constructInterface]
        · intro hc
          have hc2 : getParamString p "child_frame_id" = none := by
            simp [getParamString, hc]
          cases hb2 : getParamBool p "verbose" <;>
            cases hf2 : getParamString p "frame_id" <;>
            simp [hb2, hf2, hc2, constructInterface]
  · intro q hagree iface
    have h1 : p "vocabulary_file_path" = q "vocabulary_file_path" :=
      hagree _ (by simp [readParamKeys])
    have h2 : p "settings_file_path" = q "settings_file_path" :=
      hagree _ (by simp [readParamKeys])
    have h3 : p "verbose" = q "verbose" := hagree _ (by simp [readParamKeys])
    have h4 : p "frame_id" = q "frame_id" := hagree _ (by simp [readParamKeys])
    have h5 : p "child_frame_id" = q "child_frame_id" :=
      hagree _ (by simp [readParamKeys])
    unfold getParametersFromRos getParamString getParamBool
    rw [h1, h2, h3, h4, h5]

/-- Two-argument arctangent, as `std::atan2`: the argument of the complex
number `x + i y`. -/
noncomputable def atan2 (y x : ℝ) : ℝ :=
  Complex.arg ⟨x, y⟩

/-- An Eigen quaternion, `w + x i + y j + z k`. -/
structure Quat where
  w : ℝ
  x : ℝ
  y : ℝ
  z : ℝ

/-- The branch of Eigen's quaternion-from-matrix conversion for a
non-positive trace with `m(0,0)` the largest diagonal coefficient
(`i = 0`, `j = 1`, `k = 2`). -/
noncomputable def shepperdBranch0 (m : Matrix (Fin 3) (Fin 3) ℝ) : Quat :=
  let r := Real.sqrt (m 0 0 - m 1 1 - m 2 2 + 1)
  let s := 1 / (2 * r)
  { w := (m 2 1 - m 1 2) * s, x := r / 2,
    y := (m 1 0 + m 0 1) * s, z := (m 2 0 + m 0 2) * s }

/-- The branch for a non-positive trace with `m(1,1)` the largest diagonal
coefficient (`i = 1`, `j = 2`, `k = 0`). -/
noncomputable def shepperdBranch1 (m : Matrix (Fin 3) (Fin 3) ℝ) : Quat :=
  let r := Real.sqrt (m 1 1 - m 2 2 - m 0 0 + 1)
  let s := 1 / (2 * r)
  { w := (m 0 2 - m 2 0) * s, y := r / 2,
    z := (m 2 1 + m 1 2) * s, x := (m 0 1 + m 1 0) * s }

/-- The branch for a non-positive trace with `m(2,2)` the largest diagonal
coefficient (`i = 2`, `j = 0`, `k = 1`). -/
noncomputable def shepperdBranch2 (m : Matrix (Fin 3) (Fin 3) ℝ) : Quat :=
  let r := Real.sqrt (m 2 2 - m 0 0 - m 1 1 + 1)
  let s := 1 / (2 * r)
  { w := (m 1 0 - m 0 1) * s, z := r / 2,
    x := (m 0 2 + m 2 0) * s, y := (m 1 2 + m 2 1) * s }

/-- The branch of Eigen's quaternion-from-matrix conversion for a positive
trace: the `w`-major branch. -/
noncomputable def shepperdBranchW (m : Matrix (Fin 3) (Fin 3) ℝ) : Quat :=
  let r := Real.sqrt (m 0 0 + m 1 1 + m 2 2 + 1)
  let s := 1 / (2 * r)
  { w := r / 2, x := (m 2 1 - m 1 2) * s,
    y := (m 0 2 - m 2 0) * s, z := (m 1 0 - m 0 1) * s }

/-- Eigen's `internal::quaternionbase_assign_impl` (Shepperd's method), run
by the `Eigen::AngleAxisd aa(R)` and `Quaternion(R)` constructors: a
positive trace takes the `w`-major branch, otherwise the branch of the
largest diagonal coefficient (`i = 0`, then `i = 1` if `m(1,1) > m(0,0)`,
then `i = 2` if `m(2,2) > m(i,i)`). -/
noncomputable def quaternionFromMat (m : Matrix (Fin 3) (Fin 3) ℝ) : Quat :=
  if 0 < m 0 0 + m 1 1 + m 2 2 then
    shepperdBranchW m
  else if m 0 0 < m 1 1 then
    if m 1 1 < m 2 2 then shepperdBranch2 m else shepperdBranch1 m
  else if m 0 0 < m 2 2 then shepperdBranch2 m else shepperdBranch0 m

/-- Eigen's `AngleAxis::operator=(Quaternion)`: the norm of the vector part;
when it is nonzero, the angle is `2 atan2(n, w)` and the axis the normalized
vector part; otherwise angle `0` and axis `(1, 0, 0)`. -/
noncomputable def angleAxisFromQuat (q : Quat) : ℝ × (Fin 3 → ℝ) :=
  let n := Real.sqrt (q.x ^ 2 + q.y ^ 2 + q.z ^ 2)
  if n = 0 then (0, ![1, 0, 0])
  else (2 * atan2 n q.w, ![q.x / n, q.y / n, q.z / n])

/-- The `Eigen::AngleAxisd aa(R_unnormalized)` constructor: quaternion
extraction followed by the angle-axis conversion. -/
noncomputable def angleAxisFromMat (m : Matrix (Fin 3) (Fin 3) ℝ) :
    ℝ × (Fin 3 → ℝ) :=
  angleAxisFromQuat (quaternionFromMat m)

/-- Eigen's `AngleAxis::toRotationMatrix()` (Rodrigues reconstruction):
diagonal `(1-cos θ) kᵢ² + cos θ`, off-diagonal `(1-cos θ) kᵢ kⱼ ∓ sin θ kₗ`. -/
noncomputable def rodrigues (θ : ℝ) (k : Fin 3 → ℝ) :
    Matrix (Fin 3) (Fin 3) ℝ :=
  let s := Real.sin θ
  let c := Real.cos θ
  !![(1 - c) * k 0 * k 0 + c, (1 - c) * k 0 * k 1 - s * k 2, (1 - c) * k 0 * k 2 + s * k 1;
     (1 - c) * k 0 * k 1 + s * k 2, (1 - c) * k 1 * k 1 + c, (1 - c) * k 1 * k 2 - s * k 0;
     (1 - c) * k 0 * k 2 - s * k 1, (1 - c) * k 1 * k 2 + s * k 0, (1 - c) * k 2 * k 2 + c]

/-- The upper-left 3x3 block of a 4x4 matrix (`T_eigen_d.block<3,3>(0,0)`). -/
def block33 (T : Matrix (Fin 4) (Fin 4) ℝ) : Matrix (Fin 3) (Fin 3) ℝ :=
  fun i j => T i.castSucc j.castSucc

/-- `cv::cv2eigen` on a 4x4 float `cv::Mat` followed by the exact
float-to-double cast: the 4x4 real matrix of its entries. -/
def cv2eigen4 (m : CvMat) : Matrix (Fin 4) (Fin 4) ℝ :=
  fun i j => m.entry i j

/-- The body of `convertOrbSlamPoseToKindr` after the argument checks:
extract the 3x3 block, orthonormalize it through the axis-angle round trip,
take the top-right column as translation, and build the transformation. -/
noncomputable def convertCore (T : Matrix (Fin 4) (Fin 4) ℝ) : Transformation :=
  let R_unnormalized := block33 T
  let aa := angleAxisFromMat R_unnormalized
  let R := rodrigues aa.1 aa.2
  { rotation := R, translation := fun i => T i.castSucc 3 }

/-- Model of `OrbSlam2Interface::convertOrbSlamPoseToKindr`: the glog
`CHECK`s on the output pointer and the input dimensions, then the
conversion.  An `error` models a fatal check failure. -/
noncomputable def convertOrbSlamPoseToKindr (T_kindr_nonnull : Bool)
    (T_cv : CvMat) : Except String Transformation :=
  if T_kindr_nonnull = false then Except.error "CHECK_NOTNULL(T_kindr) failed"
  else if T_cv.cols ≠ 4 then Except.error "CHECK_EQ(T_cv.cols, 4) failed"
  else if T_cv.rows ≠ 4 then Except.error "CHECK_EQ(T_cv.rows, 4) failed"
  else Except.ok (convertCore (cv2eigen4 T_cv))

/-- C10: the conversion aborts on a fatal check exactly when the output
pointer is null or the input is not 4x4; under the precondition it completes
and writes the converted transformation. -/
theorem convert_checks_spec (T_kindr_nonnull : Bool) (T_cv : CvMat) :
    ((∃ Tr, convertOrbSlamPoseToKindr T_kindr_nonnull T_cv = Except.ok Tr) ↔
      T_kindr_nonnull = true ∧ T_cv.rows = 4 ∧ T_cv.cols = 4) ∧
    (T_kindr_nonnull = true → T_cv.rows = 4 → T_cv.cols = 4 →
      convertOrbSlamPoseToKindr T_kindr_nonnull T_cv =
        Except.ok (convertCore (cv2eigen4 T_cv))) := by
  constructor
  · cases T_kindr_nonnull with
    | false => simp [convertOrbSlamPoseToKindr]
    | true =>
      by_cases hc : T_cv.cols = 4
      · by_cases hr : T_cv.rows = 4
        · simp [convertOrbSlamPoseToKindr, hc, hr]
        · simp [convertOrbSlamPoseToKindr, hc, hr]
      · simp [convertOrbSlamPoseToKindr, hc]
  · intro hn hr hc
    subst hn
    simp [convertOrbSlamPoseToKindr, hr, hc]

/-- C9: whenever the conversion completes, the translation of the output is
the top-right 3x1 column of the input matrix, unchanged. -/
theorem convert_translation_unchanged (T_cv : CvMat) (Tr : Transformation)
    (hok : convertOrbSlamPoseToKindr true T_cv = Except.ok Tr) (i : Fin 3) :
    Tr.translation i = T_cv.entry i 3 := by
  by_cases hc : T_cv.cols = 4
  · by_cases hr : T_cv.rows = 4
    · have : Tr = convertCore (cv2eigen4 T_cv) := by
        simpa [convertOrbSlamPoseToKindr, hc, hr] using hok.symm
      subst this
      rfl
    · simp [convertOrbSlamPoseToKindr, hc, hr] at hok
  · simp [convertOrbSlamPoseToKindr, hc] at hok

/-- A concrete 4x4 `cv::Mat` used to witness the conversion theorems. -/
noncomputable def cvMatExample : CvMat :=
  { rows := 4, cols := 4, entry := fun i j => (i * 10 + j : ℕ) }

/-- Witness for C9 at a concrete 4x4 matrix. -/
theorem convert_translation_unchanged_witness :
    convertOrbSlamPoseToKindr true cvMatExample =
      Except.ok (convertCore (cv2eigen4 cvMatExample)) ∧
    (convertCore (cv2eigen4 cvMatExample)).translation 0 =
      cvMatExample.entry ((0 : Fin 3) : ℕ) 3 :=
  ⟨rfl, convert_translation_unchanged cvMatExample
    (convertCore (cv2eigen4 cvMatExample)) rfl 0⟩

theorem angleAxisFromQuat_axis_unit (q : Quat) :
    (angleAxisFromQuat q).2 0 ^ 2 + (angleAxisFromQuat q).2 1 ^ 2 +
      (angleAxisFromQuat q).2 2 ^ 2 = 1 := by
  unfold angleAxisFromQuat
  by_cases hn : Real.sqrt (q.x ^ 2 + q.y ^ 2 + q.z ^ 2) = 0
  · simp [hn]
  · have hnn : (0 : ℝ) ≤ q.x ^ 2 + q.y ^ 2 + q.z ^ 2 := by positivity
    have hsq := Real.sq_sqrt hnn
    simp only [if_neg hn]
    simp only [Matrix.cons_val_zero, Matrix.cons_val_one, Matrix.head_cons,
      Matrix.cons_val_two, Matrix.tail_cons]
    have hsum : q.x ^ 2 + q.y ^ 2 + q.z ^ 2 ≠ 0 := fun h => hn (by rw [h, Real.sqrt_zero])
    rw [div_pow, div_pow, div_pow, div_add_div_same, div_add_div_same, hsq,
      div_self hsum]

theorem rodrigues_orthogonal (θ : ℝ) (k : Fin 3 → ℝ)
    (hk : k 0 ^ 2 + k 1 ^ 2 + k 2 ^ 2 = 1) :
    rodrigues θ k * (rodrigues θ k).transpose = 1 := by
  have hsc := Real.sin_sq_add_cos_sq θ
  ext i j
  rw [Matrix.mul_apply]
  simp only [Matrix.transpose_apply, Fin.sum_univ_three]
  fin_cases i <;> fin_cases j <;> simp [rodrigues, Matrix.one_apply]
  · linear_combination (k 0 * k 0 * (1 - Real.cos θ) ^ 2 + Real.sin θ ^ 2) * hk +
      (1 - k 0 * k 0) * hsc
  · linear_combination (k 0 * k 1 * (1 - Real.cos θ) ^ 2) * hk + (-(k 0 * k 1)) * hsc
  · linear_combination (k 0 * k 2 * (1 - Real.cos θ) ^ 2) * hk + (-(k 0 * k 2)) * hsc
  · linear_combination (k 0 * k 1 * (1 - Real.cos θ) ^ 2) * hk + (-(k 0 * k 1)) * hsc
  · linear_combination (k 1 * k 1 * (1 - Real.cos θ) ^ 2 + Real.sin θ ^ 2) * hk +
      (1 - k 1 * k 1) * hsc
  · linear_combination (k 1 * k 2 * (1 - Real.cos θ) ^ 2) * hk + (-(k 1 * k 2)) * hsc
  · linear_combination (k 0 * k 2 * (1 - Real.cos θ) ^ 2) * hk + (-(k 0 * k 2)) * hsc
  · linear_combination (k 1 * k 2 * (1 - Real.cos θ) ^ 2) * hk + (-(k 1 * k 2)) * hsc
  · linear_combination (k 2 * k 2 * (1 - Real.cos θ) ^ 2 + Real.sin θ ^ 2) * hk +
      (1 - k 2 * k 2) * hsc

theorem rodrigues_det_one (θ : ℝ) (k : Fin 3 → ℝ)
    (hk : k 0 ^ 2 + k 1 ^ 2 + k 2 ^ 2 = 1) :
    (rodrigues θ k).det = 1 := by
  have hsc := Real.sin_sq_add_cos_sq θ
  rw [Matrix.det_fin_three]
  simp [rodrigues]
  linear_combination (Real.sin θ ^ 2 + (1 - Real.cos θ) * (Real.sin θ ^ 2 + Real.cos θ ^ 2) +
    (1 - Real.cos θ) * Real.sin θ ^ 2 * (k 0 ^ 2 + k 1 ^ 2 + k 2 ^ 2 - 1)) * hk + hsc

/-- C2: for every 4x4 input, the output rotation is computed by decomposing
the upper-left 3x3 block into an axis-angle representation and
reconstructing a matrix from it, and the reconstructed matrix is a valid
rotation: orthogonal with determinant `1`. -/
theorem convert_rotation_valid (T : Matrix (Fin 4) (Fin 4) ℝ) :
    (convertCore T).rotation =
      rodrigues (angleAxisFromMat (block33 T)).1 (angleAxisFromMat (block33 T)).2 ∧
    (convertCore T).rotation * ((convertCore T).rotation).transpose = 1 ∧
    ((convertCore T).rotation).det = 1 := by
  have hunit := angleAxisFromQuat_axis_unit (quaternionFromMat (block33 T))
  exact ⟨rfl, rodrigues_orthogonal _ _ hunit, rodrigues_det_one _ _ hunit⟩

/-- The rotation matrix represented by a unit quaternion, in the symmetric
form used to relate the quaternion extracted by Shepperd's method to the
matrix it was extracted from. -/
noncomputable def quatToMat (q : Quat) : Matrix (Fin 3) (Fin 3) ℝ :=
  !![q.w ^ 2 + q.x ^ 2 - q.y ^ 2 - q.z ^ 2, 2 * (q.x * q.y - q.w * q.z), 2 * (q.x * q.z + q.w * q.y);
     2 * (q.x * q.y + q.w * q.z), q.w ^ 2 - q.x ^ 2 + q.y ^ 2 - q.z ^ 2, 2 * (q.y * q.z - q.w * q.x);
     2 * (q.x * q.z - q.w * q.y), 2 * (q.y * q.z + q.w * q.x), q.w ^ 2 - q.x ^ 2 - q.y ^ 2 + q.z ^ 2]

lemma so3_rowEq (R : Matrix (Fin 3) (Fin 3) ℝ) (hA : R * R.transpose = 1) (i j : Fin 3) :
    R i 0 * R j 0 + R i 1 * R j 1 + R i 2 * R j 2 = if i = j then 1 else 0 := by
  have h : (R * R.transpose) i j = (1 : Matrix (Fin 3) (Fin 3) ℝ) i j := by rw [hA]
  rw [Matrix.mul_apply, Fin.sum_univ_three] at h
  simpa [Matrix.transpose_apply, Matrix.one_apply] using h

lemma so3_colEq (R : Matrix (Fin 3) (Fin 3) ℝ) (hA : R * R.transpose = 1) (i j : Fin 3) :
    R 0 i * R 0 j + R 1 i * R 1 j + R 2 i * R 2 j = if i = j then 1 else 0 := by
  have hA2 : R.transpose * R = 1 := Matrix.mul_eq_one_comm.mp hA
  have h : (R.transpose * R) i j = (1 : Matrix (Fin 3) (Fin 3) ℝ) i j := by rw [hA2]
  rw [Matrix.mul_apply, Fin.sum_univ_three] at h
  simpa [Matrix.transpose_apply, Matrix.one_apply] using h

lemma so3_adjugate (R : Matrix (Fin 3) (Fin 3) ℝ) (hA : R * R.transpose = 1)
    (hdet : R.det = 1) : R.adjugate = R.transpose := by
  have h1 : R * R.adjugate = 1 := by rw [Matrix.mul_adjugate, hdet, one_smul]
  have hA2 : R.transpose * R = 1 := Matrix.mul_eq_one_comm.mp hA
  calc R.adjugate = 1 * R.adjugate := (one_mul _).symm
    _ = R.transpose * R * R.adjugate := by rw [hA2]
    _ = R.transpose * (R * R.adjugate) := Matrix.mul_assoc _ _ _
    _ = R.transpose := by rw [h1, Matrix.mul_one]

lemma so3_cofEq (R : Matrix (Fin 3) (Fin 3) ℝ) (hA : R * R.transpose = 1)
    (hdet : R.det = 1) (i j : Fin 3) : R.adjugate i j = R j i := by
  rw [so3_adjugate R hA hdet, Matrix.transpose_apply]

lemma so3_r1 (R : Matrix (Fin 3) (Fin 3) ℝ) (hA : R * R.transpose = 1) :
    R 0 0 * R 0 0 + R 0 1 * R 0 1 + R 0 2 * R 0 2 = 1 := by
  simpa using so3_rowEq R hA 0 0

lemma so3_r2 (R : Matrix (Fin 3) (Fin 3) ℝ) (hA : R * R.transpose = 1) :
    R 1 0 * R 1 0 + R 1 1 * R 1 1 + R 1 2 * R 1 2 = 1 := by
  simpa using so3_rowEq R hA 1 1

lemma so3_r3 (R : Matrix (Fin 3) (Fin 3) ℝ) (hA : R * R.transpose = 1) :
    R 2 0 * R 2 0 + R 2 1 * R 2 1 + R 2 2 * R 2 2 = 1 := by
  simpa using so3_rowEq R hA 2 2

lemma so3_r12 (R : Matrix (Fin 3) (Fin 3) ℝ) (hA : R * R.transpose = 1) :
    R 0 0 * R 1 0 + R 0 1 * R 1 1 + R 0 2 * R 1 2 = 0 := by
  simpa using so3_rowEq R hA 0 1

lemma so3_r13 (R : Matrix (Fin 3) (Fin 3) ℝ) (hA : R * R.transpose = 1) :
    R 0 0 * R 2 0 + R 0 1 * R 2 1 + R 0 2 * R 2 2 = 0 := by
  simpa using so3_rowEq R hA 0 2

lemma so3_r23 (R : Matrix (Fin 3) (Fin 3) ℝ) (hA : R * R.transpose = 1) :
    R 1 0 * R 2 0 + R 1 1 * R 2 1 + R 1 2 * R 2 2 = 0 := by
  simpa using so3_rowEq R hA 1 2

lemma so3_c1 (R : Matrix (Fin 3) (Fin 3) ℝ) (hA : R * R.transpose = 1) :
    R 0 0 * R 0 0 + R 1 0 * R 1 0 + R 2 0 * R 2 0 = 1 := by
  simpa using so3_colEq R hA 0 0

lemma so3_c2 (R : Matrix (Fin 3) (Fin 3) ℝ) (hA : R * R.transpose = 1) :
    R 0 1 * R 0 1 + R 1 1 * R 1 1 + R 2 1 * R 2 1 = 1 := by
  simpa using so3_colEq R hA 1 1

lemma so3_c3 (R : Matrix (Fin 3) (Fin 3) ℝ) (hA : R * R.transpose = 1) :
    R 0 2 * R 0 2 + R 1 2 * R 1 2 + R 2 2 * R 2 2 = 1 := by
  simpa using so3_colEq R hA 2 2

lemma so3_c12 (R : Matrix (Fin 3) (Fin 3) ℝ) (hA : R * R.transpose = 1) :
    R 0 0 * R 0 1 + R 1 0 * R 1 1 + R 2 0 * R 2 1 = 0 := by
  simpa using so3_colEq R hA 0 1

lemma so3_c13 (R : Matrix (Fin 3) (Fin 3) ℝ) (hA : R * R.transpose = 1) :
    R 0 0 * R 0 2 + R 1 0 * R 1 2 + R 2 0 * R 2 2 = 0 := by
  simpa using so3_colEq R hA 0 2

lemma so3_c23 (R : Matrix (Fin 3) (Fin 3) ℝ) (hA : R * R.transpose = 1) :
    R 0 1 * R 0 2 + R 1 1 * R 1 2 + R 2 1 * R 2 2 = 0 := by
  simpa using so3_colEq R hA 1 2

lemma so3_cof_a (R : Matrix (Fin 3) (Fin 3) ℝ) (hA : R * R.transpose = 1) (hdet : R.det = 1) :
    R 0 0 = R 1 1 * R 2 2 - R 1 2 * R 2 1 := by
  have h := so3_cofEq R hA hdet 0 0
  rw [Matrix.adjugate_fin_three] at h
  simp at h
  linarith [h]

lemma so3_cof_b (R : Matrix (Fin 3) (Fin 3) ℝ) (hA : R * R.transpose = 1) (hdet : R.det = 1) :
    R 0 1 = -(R 1 0 * R 2 2) + R 1 2 * R 2 0 := by
  have h := so3_cofEq R hA hdet 1 0
  rw [Matrix.adjugate_fin_three] at h
  simp at h
  linarith [h]

lemma so3_cof_c (R : Matrix (Fin 3) (Fin 3) ℝ) (hA : R * R.transpose = 1) (hdet : R.det = 1) :
    R 0 2 = R 1 0 * R 2 1 - R 1 1 * R 2 0 := by
  have h := so3_cofEq R hA hdet 2 0
  rw [Matrix.adjugate_fin_three] at h
  simp at h
  linarith [h]

lemma so3_cof_d (R : Matrix (Fin 3) (Fin 3) ℝ) (hA : R * R.transpose = 1) (hdet : R.det = 1) :
    R 1 0 = -(R 0 1 * R 2 2) + R 0 2 * R 2 1 := by
  have h := so3_cofEq R hA hdet 0 1
  rw [Matrix.adjugate_fin_three] at h
  simp at h
  linarith [h]

lemma so3_cof_e (R : Matrix (Fin 3) (Fin 3) ℝ) (hA : R * R.transpose = 1) (hdet : R.det = 1) :
    R 1 1 = R 0 0 * R 2 2 - R 0 2 * R 2 0 := by
  have h := so3_cofEq R hA hdet 1 1
  rw [Matrix.adjugate_fin_three] at h
  simp at h
  linarith [h]

lemma so3_cof_f (R : Matrix (Fin 3) (Fin 3) ℝ) (hA : R * R.transpose = 1) (hdet : R.det = 1) :
    R 1 2 = -(R 0 0 * R 2 1) + R 0 1 * R 2 0 := by
  have h := so3_cofEq R hA hdet 2 1
  rw [Matrix.adjugate_fin_three] at h
  simp at h
  linarith [h]

lemma so3_cof_g (R : Matrix (Fin 3) (Fin 3) ℝ) (hA : R * R.transpose = 1) (hdet : R.det = 1) :
    R 2 0 = R 0 1 * R 1 2 - R 0 2 * R 1 1 := by
  have h := so3_cofEq R hA hdet 0 2
  rw [Matrix.adjugate_fin_three] at h
  simp at h
  linarith [h]

lemma so3_cof_h (R : Matrix (Fin 3) (Fin 3) ℝ) (hA : R * R.transpose = 1) (hdet : R.det = 1) :
    R 2 1 = -(R 0 0 * R 1 2) + R 0 2 * R 1 0 := by
  have h := so3_cofEq R hA hdet 1 2
  rw [Matrix.adjugate_fin_three] at h
  simp at h
  linarith [h]

lemma so3_cof_i (R : Matrix (Fin 3) (Fin 3) ℝ) (hA : R * R.transpose = 1) (hdet : R.det = 1) :
    R 2 2 = R 0 0 * R 1 1 - R 0 1 * R 1 0 := by
  have h := so3_cofEq R hA hdet 2 2
  rw [Matrix.adjugate_fin_three] at h
  simp at h
  linarith [h]

lemma so3_T1 (R : Matrix (Fin 3) (Fin 3) ℝ) (hA : R * R.transpose = 1) (hdet : R.det = 1) :
    (R 2 1 - R 1 2) * (R 2 1 - R 1 2) = (1 + R 0 0 + R 1 1 + R 2 2) * (1 + R 0 0 - R 1 1 - R 2 2) := by
  have hc1 := so3_c1 R hA
  have hcof_a := so3_cof_a R hA hdet
  have hr2 := so3_r2 R hA
  have hr3 := so3_r3 R hA
  linear_combination hr2 + hr3 - hc1 - 2 * hcof_a

lemma so3_T2 (R : Matrix (Fin 3) (Fin 3) ℝ) (hA : R * R.transpose = 1) (hdet : R.det = 1) :
    (R 0 2 - R 2 0) * (R 0 2 - R 2 0) = (1 + R 0 0 + R 1 1 + R 2 2) * (1 - R 0 0 + R 1 1 - R 2 2) := by
  have hc2 := so3_c2 R hA
  have hcof_e := so3_cof_e R hA hdet
  have hr1 := so3_r1 R hA
  have hr3 := so3_r3 R hA
  linear_combination hr1 + hr3 - hc2 - 2 * hcof_e

lemma so3_T3 (R : Matrix (Fin 3) (Fin 3) ℝ) (hA : R * R.transpose = 1) (hdet : R.det = 1) :
    (R 1 0 - R 0 1) * (R 1 0 - R 0 1) = (1 + R 0 0 + R 1 1 + R 2 2) * (1 - R 0 0 - R 1 1 + R 2 2) := by
  have hc1 := so3_c1 R hA
  have hc2 := so3_c2 R hA
  have hcof_i := so3_cof_i R hA hdet
  have hr3 := so3_r3 R hA
  linear_combination -hr3 + hc1 + hc2 - 2 * hcof_i

lemma so3_T4 (R : Matrix (Fin 3) (Fin 3) ℝ) (hA : R * R.transpose = 1) (hdet : R.det = 1) :
    (R 1 0 + R 0 1) * (R 1 0 + R 0 1) = (1 + R 0 0 - R 1 1 - R 2 2) * (1 - R 0 0 + R 1 1 - R 2 2) := by
  have hc1 := so3_c1 R hA
  have hc2 := so3_c2 R hA
  have hcof_i := so3_cof_i R hA hdet
  have hr3 := so3_r3 R hA
  linear_combination -hr3 + hc1 + hc2 + 2 * hcof_i

lemma so3_T5 (R : Matrix (Fin 3) (Fin 3) ℝ) (hA : R * R.transpose = 1) (hdet : R.det = 1) :
    (R 2 0 + R 0 2) * (R 2 0 + R 0 2) = (1 + R 0 0 - R 1 1 - R 2 2) * (1 - R 0 0 - R 1 1 + R 2 2) := by
  have hc2 := so3_c2 R hA
  have hcof_e := so3_cof_e R hA hdet
  have hr1 := so3_r1 R hA
  have hr3 := so3_r3 R hA
  linear_combination hr1 + hr3 - hc2 + 2 * hcof_e

lemma so3_T6 (R : Matrix (Fin 3) (Fin 3) ℝ) (hA : R * R.transpose = 1) (hdet : R.det = 1) :
    (R 2 1 + R 1 2) * (R 2 1 + R 1 2) = (1 - R 0 0 + R 1 1 - R 2 2) * (1 - R 0 0 - R 1 1 + R 2 2) := by
  have hc1 := so3_c1 R hA
  have hcof_a := so3_cof_a R hA hdet
  have hr2 := so3_r2 R hA
  have hr3 := so3_r3 R hA
  linear_combination hr2 + hr3 - hc1 + 2 * hcof_a

lemma so3_T7 (R : Matrix (Fin 3) (Fin 3) ℝ) (hA : R * R.transpose = 1) (hdet : R.det = 1) :
    (R 2 1 - R 1 2) * (R 0 2 - R 2 0) = (1 + R 0 0 + R 1 1 + R 2 2) * (R 1 0 + R 0 1) := by
  have hc12 := so3_c12 R hA
  have hcof_b := so3_cof_b R hA hdet
  have hcof_d := so3_cof_d R hA hdet
  have hr12 := so3_r12 R hA
  linear_combination -hr12 - hc12 - hcof_b - hcof_d

lemma so3_T8 (R : Matrix (Fin 3) (Fin 3) ℝ) (hA : R * R.transpose = 1) (hdet : R.det = 1) :
    (R 2 1 - R 1 2) * (R 1 0 - R 0 1) = (1 + R 0 0 + R 1 1 + R 2 2) * (R 2 0 + R 0 2) := by
  have hc13 := so3_c13 R hA
  have hcof_c := so3_cof_c R hA hdet
  have hcof_g := so3_cof_g R hA hdet
  have hr13 := so3_r13 R hA
  linear_combination -hr13 - hc13 - hcof_c - hcof_g

lemma so3_T9 (R : Matrix (Fin 3) (Fin 3) ℝ) (hA : R * R.transpose = 1) (hdet : R.det = 1) :
    (R 0 2 - R 2 0) * (R 1 0 - R 0 1) = (1 + R 0 0 + R 1 1 + R 2 2) * (R 2 1 + R 1 2) := by
  have hc23 := so3_c23 R hA
  have hcof_f := so3_cof_f R hA hdet
  have hcof_h := so3_cof_h R hA hdet
  have hr23 := so3_r23 R hA
  linear_combination -hr23 - hc23 - hcof_f - hcof_h

lemma so3_T10 (R : Matrix (Fin 3) (Fin 3) ℝ) (hA : R * R.transpose = 1) (hdet : R.det = 1) :
    (R 2 1 - R 1 2) * (R 2 0 + R 0 2) = (1 + R 0 0 - R 1 1 - R 2 2) * (R 1 0 - R 0 1) := by
  have hc12 := so3_c12 R hA
  have hcof_b := so3_cof_b R hA hdet
  have hcof_d := so3_cof_d R hA hdet
  have hr12 := so3_r12 R hA
  linear_combination -hr12 + hc12 + hcof_b - hcof_d

lemma so3_T11 (R : Matrix (Fin 3) (Fin 3) ℝ) (hA : R * R.transpose = 1) (hdet : R.det = 1) :
    (R 2 1 - R 1 2) * (R 1 0 + R 0 1) = (1 + R 0 0 - R 1 1 - R 2 2) * (R 0 2 - R 2 0) := by
  have hc13 := so3_c13 R hA
  have hcof_c := so3_cof_c R hA hdet
  have hcof_g := so3_cof_g R hA hdet
  have hr13 := so3_r13 R hA
  linear_combination hr13 - hc13 - hcof_c + hcof_g

lemma so3_T12 (R : Matrix (Fin 3) (Fin 3) ℝ) (hA : R * R.transpose = 1) (hdet : R.det = 1) :
    (R 1 0 + R 0 1) * (R 2 0 + R 0 2) = (1 + R 0 0 - R 1 1 - R 2 2) * (R 2 1 + R 1 2) := by
  have hc23 := so3_c23 R hA
  have hcof_f := so3_cof_f R hA hdet
  have hcof_h := so3_cof_h R hA hdet
  have hr23 := so3_r23 R hA
  linear_combination hr23 + hc23 - hcof_f - hcof_h

lemma so3_T13 (R : Matrix (Fin 3) (Fin 3) ℝ) (hA : R * R.transpose = 1) (hdet : R.det = 1) :
    (R 0 2 - R 2 0) * (R 2 1 + R 1 2) = (1 - R 0 0 + R 1 1 - R 2 2) * (R 1 0 - R 0 1) := by
  have hc12 := so3_c12 R hA
  have hcof_b := so3_cof_b R hA hdet
  have hcof_d := so3_cof_d R hA hdet
  have hr12 := so3_r12 R hA
  linear_combination hr12 - hc12 + hcof_b - hcof_d

lemma so3_T14 (R : Matrix (Fin 3) (Fin 3) ℝ) (hA : R * R.transpose = 1) (hdet : R.det = 1) :
    (R 0 2 - R 2 0) * (R 1 0 + R 0 1) = (1 - R 0 0 + R 1 1 - R 2 2) * (R 2 1 - R 1 2) := by
  have hc23 := so3_c23 R hA
  have hcof_f := so3_cof_f R hA hdet
  have hcof_h := so3_cof_h R hA hdet
  have hr23 := so3_r23 R hA
  linear_combination -hr23 + hc23 + hcof_f - hcof_h

lemma so3_T15 (R : Matrix (Fin 3) (Fin 3) ℝ) (hA : R * R.transpose = 1) (hdet : R.det = 1) :
    (R 1 0 + R 0 1) * (R 2 1 + R 1 2) = (1 - R 0 0 + R 1 1 - R 2 2) * (R 2 0 + R 0 2) := by
  have hc13 := so3_c13 R hA
  have hcof_c := so3_cof_c R hA hdet
  have hcof_g := so3_cof_g R hA hdet
  have hr13 := so3_r13 R hA
  linear_combination hr13 + hc13 - hcof_c - hcof_g

lemma so3_T16 (R : Matrix (Fin 3) (Fin 3) ℝ) (hA : R * R.transpose = 1) (hdet : R.det = 1) :
    (R 1 0 - R 0 1) * (R 2 0 + R 0 2) = (1 - R 0 0 - R 1 1 + R 2 2) * (R 2 1 - R 1 2) := by
  have hc23 := so3_c23 R hA
  have hcof_f := so3_cof_f R hA hdet
  have hcof_h := so3_cof_h R hA hdet
  have hr23 := so3_r23 R hA
  linear_combination hr23 - hc23 + hcof_f - hcof_h

lemma so3_T17 (R : Matrix (Fin 3) (Fin 3) ℝ) (hA : R * R.transpose = 1) (hdet : R.det = 1) :
    (R 1 0 - R 0 1) * (R 2 1 + R 1 2) = (1 - R 0 0 - R 1 1 + R 2 2) * (R 0 2 - R 2 0) := by
  have hc13 := so3_c13 R hA
  have hcof_c := so3_cof_c R hA hdet
  have hcof_g := so3_cof_g R hA hdet
  have hr13 := so3_r13 R hA
  linear_combination -hr13 + hc13 - hcof_c + hcof_g

lemma so3_T18 (R : Matrix (Fin 3) (Fin 3) ℝ) (hA : R * R.transpose = 1) (hdet : R.det = 1) :
    (R 2 0 + R 0 2) * (R 2 1 + R 1 2) = (1 - R 0 0 - R 1 1 + R 2 2) * (R 1 0 + R 0 1) := by
  have hc12 := so3_c12 R hA
  have hcof_b := so3_cof_b R hA hdet
  have hcof_d := so3_cof_d R hA hdet
  have hr12 := so3_r12 R hA
  linear_combination hr12 + hc12 - hcof_b - hcof_d

lemma shepperdBranchW_spec (R : Matrix (Fin 3) (Fin 3) ℝ)
    (hA : R * R.transpose = 1) (hdet : R.det = 1)
    (hS : 0 < R 0 0 + R 1 1 + R 2 2 + 1) :
    ((shepperdBranchW R).w ^ 2 + (shepperdBranchW R).x ^ 2 + (shepperdBranchW R).y ^ 2 + (shepperdBranchW R).z ^ 2 = 1) ∧
    quatToMat (shepperdBranchW R) = R := by
  have hr2 : Real.sqrt (R 0 0 + R 1 1 + R 2 2 + 1) ^ 2 = R 0 0 + R 1 1 + R 2 2 + 1 :=
    Real.sq_sqrt (le_of_lt hS)
  have hrne : Real.sqrt (R 0 0 + R 1 1 + R 2 2 + 1) ≠ 0 :=
    ne_of_gt (Real.sqrt_pos.mpr hS)
  have hQs : (R 0 0 + R 1 1 + R 2 2 + 1) * (1 / (2 * Real.sqrt (R 0 0 + R 1 1 + R 2 2 + 1))) ^ 2 = 1 / 4 := by
    field_simp
    linear_combination -4 * hr2
  have hrs : Real.sqrt (R 0 0 + R 1 1 + R 2 2 + 1) * (1 / (2 * Real.sqrt (R 0 0 + R 1 1 + R 2 2 + 1))) = 1 / 2 := by
    field_simp
    ring
  have hT1 := so3_T1 R hA hdet
  have hT2 := so3_T2 R hA hdet
  have hT3 := so3_T3 R hA hdet
  have hT7 := so3_T7 R hA hdet
  have hT8 := so3_T8 R hA hdet
  have hT9 := so3_T9 R hA hdet
  have Pw2 : (shepperdBranchW R).w ^ 2 = (1 + R 0 0 + R 1 1 + R 2 2) / 4 := by
    show (Real.sqrt (R 0 0 + R 1 1 + R 2 2 + 1) / 2) ^ 2 = _
    linear_combination hr2 / 4
  have Px2 : (shepperdBranchW R).x ^ 2 = (1 + R 0 0 - R 1 1 - R 2 2) / 4 := by
    show ((R 2 1 - R 1 2) * (1 / (2 * Real.sqrt (R 0 0 + R 1 1 + R 2 2 + 1)))) ^ 2 = _
    linear_combination (1 / (2 * Real.sqrt (R 0 0 + R 1 1 + R 2 2 + 1))) ^ 2 * hT1 + (1 + R 0 0 - R 1 1 - R 2 2) * hQs
  have Py2 : (shepperdBranchW R).y ^ 2 = (1 - R 0 0 + R 1 1 - R 2 2) / 4 := by
    show ((R 0 2 - R 2 0) * (1 / (2 * Real.sqrt (R 0 0 + R 1 1 + R 2 2 + 1)))) ^ 2 = _
    linear_combination (1 / (2 * Real.sqrt (R 0 0 + R 1 1 + R 2 2 + 1))) ^ 2 * hT2 + (1 - R 0 0 + R 1 1 - R 2 2) * hQs
  have Pz2 : (shepperdBranchW R).z ^ 2 = (1 - R 0 0 - R 1 1 + R 2 2) / 4 := by
    show ((R 1 0 - R 0 1) * (1 / (2 * Real.sqrt (R 0 0 + R 1 1 + R 2 2 + 1)))) ^ 2 = _
    linear_combination (1 / (2 * Real.sqrt (R 0 0 + R 1 1 + R 2 2 + 1))) ^ 2 * hT3 + (1 - R 0 0 - R 1 1 + R 2 2) * hQs
  have Pwx : (shepperdBranchW R).w * (shepperdBranchW R).x = (R 2 1 - R 1 2) / 4 := by
    show (Real.sqrt (R 0 0 + R 1 1 + R 2 2 + 1) / 2) * ((R 2 1 - R 1 2) * (1 / (2 * Real.sqrt (R 0 0 + R 1 1 + R 2 2 + 1)))) = _
    linear_combination ((R 2 1 - R 1 2) / 2) * hrs
  have Pwy : (shepperdBranchW R).w * (shepperdBranchW R).y = (R 0 2 - R 2 0) / 4 := by
    show (Real.sqrt (R 0 0 + R 1 1 + R 2 2 + 1) / 2) * ((R 0 2 - R 2 0) * (1 / (2 * Real.sqrt (R 0 0 + R 1 1 + R 2 2 + 1)))) = _
    linear_combination ((R 0 2 - R 2 0) / 2) * hrs
  have Pwz : (shepperdBranchW R).w * (shepperdBranchW R).z = (R 1 0 - R 0 1) / 4 := by
    show (Real.sqrt (R 0 0 + R 1 1 + R 2 2 + 1) / 2) * ((R 1 0 - R 0 1) * (1 / (2 * Real.sqrt (R 0 0 + R 1 1 + R 2 2 + 1)))) = _
    linear_combination ((R 1 0 - R 0 1) / 2) * hrs
  have Pxy : (shepperdBranchW R).x * (shepperdBranchW R).y = (R 1 0 + R 0 1) / 4 := by
    show ((R 2 1 - R 1 2) * (1 / (2 * Real.sqrt (R 0 0 + R 1 1 + R 2 2 + 1)))) * ((R 0 2 - R 2 0) * (1 / (2 * Real.sqrt (R 0 0 + R 1 1 + R 2 2 + 1)))) = _
    linear_combination (1 / (2 * Real.sqrt (R 0 0 + R 1 1 + R 2 2 + 1))) ^ 2 * hT7 + (R 1 0 + R 0 1) * hQs
  have Pxz : (shepperdBranchW R).x * (shepperdBranchW R).z = (R 2 0 + R 0 2) / 4 := by
    show ((R 2 1 - R 1 2) * (1 / (2 * Real.sqrt (R 0 0 + R 1 1 + R 2 2 + 1)))) * ((R 1 0 - R 0 1) * (1 / (2 * Real.sqrt (R 0 0 + R 1 1 + R 2 2 + 1)))) = _
    linear_combination (1 / (2 * Real.sqrt (R 0 0 + R 1 1 + R 2 2 + 1))) ^ 2 * hT8 + (R 2 0 + R 0 2) * hQs
  have Pyz : (shepperdBranchW R).y * (shepperdBranchW R).z = (R 2 1 + R 1 2) / 4 := by
    show ((R 0 2 - R 2 0) * (1 / (2 * Real.sqrt (R 0 0 + R 1 1 + R 2 2 + 1)))) * ((R 1 0 - R 0 1) * (1 / (2 * Real.sqrt (R 0 0 + R 1 1 + R 2 2 + 1)))) = _
    linear_combination (1 / (2 * Real.sqrt (R 0 0 + R 1 1 + R 2 2 + 1))) ^ 2 * hT9 + (R 2 1 + R 1 2) * hQs
  have e00 : quatToMat (shepperdBranchW R) 0 0 = R 0 0 := by
    simp [quatToMat]
    linear_combination Pw2 + Px2 - Py2 - Pz2
  have e01 : quatToMat (shepperdBranchW R) 0 1 = R 0 1 := by
    simp [quatToMat]
    linear_combination 2 * Pxy - 2 * Pwz
  have e02 : quatToMat (shepperdBranchW R) 0 2 = R 0 2 := by
    simp [quatToMat]
    linear_combination 2 * Pxz + 2 * Pwy
  have e10 : quatToMat (shepperdBranchW R) 1 0 = R 1 0 := by
    simp [quatToMat]
    linear_combination 2 * Pxy + 2 * Pwz
  have e11 : quatToMat (shepperdBranchW R) 1 1 = R 1 1 := by
    simp [quatToMat]
    linear_combination Pw2 - Px2 + Py2 - Pz2
  have e12 : quatToMat (shepperdBranchW R) 1 2 = R 1 2 := by
    simp [quatToMat]
    linear_combination 2 * Pyz - 2 * Pwx
  have e20 : quatToMat (shepperdBranchW R) 2 0 = R 2 0 := by
    simp [quatToMat]
    linear_combination 2 * Pxz - 2 * Pwy
  have e21 : quatToMat (shepperdBranchW R) 2 1 = R 2 1 := by
    simp [quatToMat]
    linear_combination 2 * Pyz + 2 * Pwx
  have e22 : quatToMat (shepperdBranchW R) 2 2 = R 2 2 := by
    simp [quatToMat]
    linear_combination Pw2 - Px2 - Py2 + Pz2
  refine ⟨by linear_combination Pw2 + Px2 + Py2 + Pz2, ?_⟩
  ext i j
  fin_cases i <;> fin_cases j
  · exact e00
  · exact e01
  · exact e02
  · exact e10
  · exact e11
  · exact e12
  · exact e20
  · exact e21
  · exact e22

lemma shepperdBranch0_spec (R : Matrix (Fin 3) (Fin 3) ℝ)
    (hA : R * R.transpose = 1) (hdet : R.det = 1)
    (hS : 0 < R 0 0 - R 1 1 - R 2 2 + 1) :
    ((shepperdBranch0 R).w ^ 2 + (shepperdBranch0 R).x ^ 2 + (shepperdBranch0 R).y ^ 2 + (shepperdBranch0 R).z ^ 2 = 1) ∧
    quatToMat (shepperdBranch0 R) = R := by
  have hr2 : Real.sqrt (R 0 0 - R 1 1 - R 2 2 + 1) ^ 2 = R 0 0 - R 1 1 - R 2 2 + 1 :=
    Real.sq_sqrt (le_of_lt hS)
  have hrne : Real.sqrt (R 0 0 - R 1 1 - R 2 2 + 1) ≠ 0 :=
    ne_of_gt (Real.sqrt_pos.mpr hS)
  have hQs : (R 0 0 - R 1 1 - R 2 2 + 1) * (1 / (2 * Real.sqrt (R 0 0 - R 1 1 - R 2 2 + 1))) ^ 2 = 1 / 4 := by
    field_simp
    linear_combination -4 * hr2
  have hrs : Real.sqrt (R 0 0 - R 1 1 - R 2 2 + 1) * (1 / (2 * Real.sqrt (R 0 0 - R 1 1 - R 2 2 + 1))) = 1 / 2 := by
    field_simp
    ring
  have hT1 := so3_T1 R hA hdet
  have hT4 := so3_T4 R hA hdet
  have hT5 := so3_T5 R hA hdet
  have hT10 := so3_T10 R hA hdet
  have hT11 := so3_T11 R hA hdet
  have hT12 := so3_T12 R hA hdet
  have Pw2 : (shepperdBranch0 R).w ^ 2 = (1 + R 0 0 + R 1 1 + R 2 2) / 4 := by
    show ((R 2 1 - R 1 2) * (1 / (2 * Real.sqrt (R 0 0 - R 1 1 - R 2 2 + 1)))) ^ 2 = _
    linear_combination (1 / (2 * Real.sqrt (R 0 0 - R 1 1 - R 2 2 + 1))) ^ 2 * hT1 + (1 + R 0 0 + R 1 1 + R 2 2) * hQs
  have Px2 : (shepperdBranch0 R).x ^ 2 = (1 + R 0 0 - R 1 1 - R 2 2) / 4 := by
    show (Real.sqrt (R 0 0 - R 1 1 - R 2 2 + 1) / 2) ^ 2 = _
    linear_combination hr2 / 4
  have Py2 : (shepperdBranch0 R).y ^ 2 = (1 - R 0 0 + R 1 1 - R 2 2) / 4 := by
    show ((R 1 0 + R 0 1) * (1 / (2 * Real.sqrt (R 0 0 - R 1 1 - R 2 2 + 1)))) ^ 2 = _
    linear_combination (1 / (2 * Real.sqrt (R 0 0 - R 1 1 - R 2 2 + 1))) ^ 2 * hT4 + (1 - R 0 0 + R 1 1 - R 2 2) * hQs
  have Pz2 : (shepperdBranch0 R).z ^ 2 = (1 - R 0 0 - R 1 1 + R 2 2) / 4 := by
    show ((R 2 0 + R 0 2) * (1 / (2 * Real.sqrt (R 0 0 - R 1 1 - R 2 2 + 1)))) ^ 2 = _
    linear_combination (1 / (2 * Real.sqrt (R 0 0 - R 1 1 - R 2 2 + 1))) ^ 2 * hT5 + (1 - R 0 0 - R 1 1 + R 2 2) * hQs
  have Pwx : (shepperdBranch0 R).w * (shepperdBranch0 R).x = (R 2 1 - R 1 2) / 4 := by
    show ((R 2 1 - R 1 2) * (1 / (2 * Real.sqrt (R 0 0 - R 1 1 - R 2 2 + 1)))) * (Real.sqrt (R 0 0 - R 1 1 - R 2 2 + 1) / 2) = _
    linear_combination ((R 2 1 - R 1 2) / 2) * hrs
  have Pwy : (shepperdBranch0 R).w * (shepperdBranch0 R).y = (R 0 2 - R 2 0) / 4 := by
    show ((R 2 1 - R 1 2) * (1 / (2 * Real.sqrt (R 0 0 - R 1 1 - R 2 2 + 1)))) * ((R 1 0 + R 0 1) * (1 / (2 * Real.sqrt (R 0 0 - R 1 1 - R 2 2 + 1)))) = _
    linear_combination (1 / (2 * Real.sqrt (R 0 0 - R 1 1 - R 2 2 + 1))) ^ 2 * hT11 + (R 0 2 - R 2 0) * hQs
  have Pwz : (shepperdBranch0 R).w * (shepperdBranch0 R).z = (R 1 0 - R 0 1) / 4 := by
    show ((R 2 1 - R 1 2) * (1 / (2 * Real.sqrt (R 0 0 - R 1 1 - R 2 2 + 1)))) * ((R 2 0 + R 0 2) * (1 / (2 * Real.sqrt (R 0 0 - R 1 1 - R 2 2 + 1)))) = _
    linear_combination (1 / (2 * Real.sqrt (R 0 0 - R 1 1 - R 2 2 + 1))) ^ 2 * hT10 + (R 1 0 - R 0 1) * hQs
  have Pxy : (shepperdBranch0 R).x * (shepperdBranch0 R).y = (R 1 0 + R 0 1) / 4 := by
    show (Real.sqrt (R 0 0 - R 1 1 - R 2 2 + 1) / 2) * ((R 1 0 + R 0 1) * (1 / (2 * Real.sqrt (R 0 0 - R 1 1 - R 2 2 + 1)))) = _
    linear_combination ((R 1 0 + R 0 1) / 2) * hrs
  have Pxz : (shepperdBranch0 R).x * (shepperdBranch0 R).z = (R 2 0 + R 0 2) / 4 := by
    show (Real.sqrt (R 0 0 - R 1 1 - R 2 2 + 1) / 2) * ((R 2 0 + R 0 2) * (1 / (2 * Real.sqrt (R 0 0 - R 1 1 - R 2 2 + 1)))) = _
    linear_combination ((R 2 0 + R 0 2) / 2) * hrs
  have Pyz : (shepperdBranch0 R).y * (shepperdBranch0 R).z = (R 2 1 + R 1 2) / 4 := by
    show ((R 1 0 + R 0 1) * (1 / (2 * Real.sqrt (R 0 0 - R 1 1 - R 2 2 + 1)))) * ((R 2 0 + R 0 2) * (1 / (2 * Real.sqrt (R 0 0 - R 1 1 - R 2 2 + 1)))) = _
    linear_combination (1 / (2 * Real.sqrt (R 0 0 - R 1 1 - R 2 2 + 1))) ^ 2 * hT12 + (R 2 1 + R 1 2) * hQs
  have e00 : quatToMat (shepperdBranch0 R) 0 0 = R 0 0 := by
    simp [quatToMat]
    linear_combination Pw2 + Px2 - Py2 - Pz2
  have e01 : quatToMat (shepperdBranch0 R) 0 1 = R 0 1 := by
    simp [quatToMat]
    linear_combination 2 * Pxy - 2 * Pwz
  have e02 : quatToMat (shepperdBranch0 R) 0 2 = R 0 2 := by
    simp [quatToMat]
    linear_combination 2 * Pxz + 2 * Pwy
  have e10 : quatToMat (shepperdBranch0 R) 1 0 = R 1 0 := by
    simp [quatToMat]
    linear_combination 2 * Pxy + 2 * Pwz
  have e11 : quatToMat (shepperdBranch0 R) 1 1 = R 1 1 := by
    simp [quatToMat]
    linear_combination Pw2 - Px2 + Py2 - Pz2
  have e12 : quatToMat (shepperdBranch0 R) 1 2 = R 1 2 := by
    simp [quatToMat]
    linear_combination 2 * Pyz - 2 * Pwx
  have e20 : quatToMat (shepperdBranch0 R) 2 0 = R 2 0 := by
    simp [quatToMat]
    linear_combination 2 * Pxz - 2 * Pwy
  have e21 : quatToMat (shepperdBranch0 R) 2 1 = R 2 1 := by
    simp [quatToMat]
    linear_combination 2 * Pyz + 2 * Pwx
  have e22 : quatToMat (shepperdBranch0 R) 2 2 = R 2 2 := by
    simp [quatToMat]
    linear_combination Pw2 - Px2 - Py2 + Pz2
  refine ⟨by linear_combination Pw2 + Px2 + Py2 + Pz2, ?_⟩
  ext i j
  fin_cases i <;> fin_cases j
  · exact e00
  · exact e01
  · exact e02
  · exact e10
  · exact e11
  · exact e12
  · exact e20
  · exact e21
  · exact e22

lemma shepperdBranch1_spec (R : Matrix (Fin 3) (Fin 3) ℝ)
    (hA : R * R.transpose = 1) (hdet : R.det = 1)
    (hS : 0 < R 1 1 - R 2 2 - R 0 0 + 1) :
    ((shepperdBranch1 R).w ^ 2 + (shepperdBranch1 R).x ^ 2 + (shepperdBranch1 R).y ^ 2 + (shepperdBranch1 R).z ^ 2 = 1) ∧
    quatToMat (shepperdBranch1 R) = R := by
  have hr2 : Real.sqrt (R 1 1 - R 2 2 - R 0 0 + 1) ^ 2 = R 1 1 - R 2 2 - R 0 0 + 1 :=
    Real.sq_sqrt (le_of_lt hS)
  have hrne : Real.sqrt (R 1 1 - R 2 2 - R 0 0 + 1) ≠ 0 :=
    ne_of_gt (Real.sqrt_pos.mpr hS)
  have hQs : (R 1 1 - R 2 2 - R 0 0 + 1) * (1 / (2 * Real.sqrt (R 1 1 - R 2 2 - R 0 0 + 1))) ^ 2 = 1 / 4 := by
    field_simp
    linear_combination -4 * hr2
  have hrs : Real.sqrt (R 1 1 - R 2 2 - R 0 0 + 1) * (1 / (2 * Real.sqrt (R 1 1 - R 2 2 - R 0 0 + 1))) = 1 / 2 := by
    field_simp
    ring
  have hT2 := so3_T2 R hA hdet
  have hT4 := so3_T4 R hA hdet
  have hT6 := so3_T6 R hA hdet
  have hT13 := so3_T13 R hA hdet
  have hT14 := so3_T14 R hA hdet
  have hT15 := so3_T15 R hA hdet
  have Pw2 : (shepperdBranch1 R).w ^ 2 = (1 + R 0 0 + R 1 1 + R 2 2) / 4 := by
    show ((R 0 2 - R 2 0) * (1 / (2 * Real.sqrt (R 1 1 - R 2 2 - R 0 0 + 1)))) ^ 2 = _
    linear_combination (1 / (2 * Real.sqrt (R 1 1 - R 2 2 - R 0 0 + 1))) ^ 2 * hT2 + (1 + R 0 0 + R 1 1 + R 2 2) * hQs
  have Px2 : (shepperdBranch1 R).x ^ 2 = (1 + R 0 0 - R 1 1 - R 2 2) / 4 := by
    show ((R 0 1 + R 1 0) * (1 / (2 * Real.sqrt (R 1 1 - R 2 2 - R 0 0 + 1)))) ^ 2 = _
    linear_combination (1 / (2 * Real.sqrt (R 1 1 - R 2 2 - R 0 0 + 1))) ^ 2 * hT4 + (1 + R 0 0 - R 1 1 - R 2 2) * hQs
  have Py2 : (shepperdBranch1 R).y ^ 2 = (1 - R 0 0 + R 1 1 - R 2 2) / 4 := by
    show (Real.sqrt (R 1 1 - R 2 2 - R 0 0 + 1) / 2) ^ 2 = _
    linear_combination hr2 / 4
  have Pz2 : (shepperdBranch1 R).z ^ 2 = (1 - R 0 0 - R 1 1 + R 2 2) / 4 := by
    show ((R 2 1 + R 1 2) * (1 / (2 * Real.sqrt (R 1 1 - R 2 2 - R 0 0 + 1)))) ^ 2 = _
    linear_combination (1 / (2 * Real.sqrt (R 1 1 - R 2 2 - R 0 0 + 1))) ^ 2 * hT6 + (1 - R 0 0 - R 1 1 + R 2 2) * hQs
  have Pwx : (shepperdBranch1 R).w * (shepperdBranch1 R).x = (R 2 1 - R 1 2) / 4 := by
    show ((R 0 2 - R 2 0) * (1 / (2 * Real.sqrt (R 1 1 - R 2 2 - R 0 0 + 1)))) * ((R 0 1 + R 1 0) * (1 / (2 * Real.sqrt (R 1 1 - R 2 2 - R 0 0 + 1)))) = _
    linear_combination (1 / (2 * Real.sqrt (R 1 1 - R 2 2 - R 0 0 + 1))) ^ 2 * hT14 + (R 2 1 - R 1 2) * hQs
  have Pwy : (shepperdBranch1 R).w * (shepperdBranch1 R).y = (R 0 2 - R 2 0) / 4 := by
    show ((R 0 2 - R 2 0) * (1 / (2 * Real.sqrt (R 1 1 - R 2 2 - R 0 0 + 1)))) * (Real.sqrt (R 1 1 - R 2 2 - R 0 0 + 1) / 2) = _
    linear_combination ((R 0 2 - R 2 0) / 2) * hrs
  have Pwz : (shepperdBranch1 R).w * (shepperdBranch1 R).z = (R 1 0 - R 0 1) / 4 := by
    show ((R 0 2 - R 2 0) * (1 / (2 * Real.sqrt (R 1 1 - R 2 2 - R 0 0 + 1)))) * ((R 2 1 + R 1 2) * (1 / (2 * Real.sqrt (R 1 1 - R 2 2 - R 0 0 + 1)))) = _
    linear_combination (1 / (2 * Real.sqrt (R 1 1 - R 2 2 - R 0 0 + 1))) ^ 2 * hT13 + (R 1 0 - R 0 1) * hQs
  have Pxy : (shepperdBranch1 R).x * (shepperdBranch1 R).y = (R 1 0 + R 0 1) / 4 := by
    show ((R 0 1 + R 1 0) * (1 / (2 * Real.sqrt (R 1 1 - R 2 2 - R 0 0 + 1)))) * (Real.sqrt (R 1 1 - R 2 2 - R 0 0 + 1) / 2) = _
    linear_combination ((R 1 0 + R 0 1) / 2) * hrs
  have Pxz : (shepperdBranch1 R).x * (shepperdBranch1 R).z = (R 2 0 + R 0 2) / 4 := by
    show ((R 0 1 + R 1 0) * (1 / (2 * Real.sqrt (R 1 1 - R 2 2 - R 0 0 + 1)))) * ((R 2 1 + R 1 2) * (1 / (2 * Real.sqrt (R 1 1 - R 2 2 - R 0 0 + 1)))) = _
    linear_combination (1 / (2 * Real.sqrt (R 1 1 - R 2 2 - R 0 0 + 1))) ^ 2 * hT15 + (R 2 0 + R 0 2) * hQs
  have Pyz : (shepperdBranch1 R).y * (shepperdBranch1 R).z = (R 2 1 + R 1 2) / 4 := by
    show (Real.sqrt (R 1 1 - R 2 2 - R 0 0 + 1) / 2) * ((R 2 1 + R 1 2) * (1 / (2 * Real.sqrt (R 1 1 - R 2 2 - R 0 0 + 1)))) = _
    linear_combination ((R 2 1 + R 1 2) / 2) * hrs
  have e00 : quatToMat (shepperdBranch1 R) 0 0 = R 0 0 := by
    simp [quatToMat]
    linear_combination Pw2 + Px2 - Py2 - Pz2
  have e01 : quatToMat (shepperdBranch1 R) 0 1 = R 0 1 := by
    simp [quatToMat]
    linear_combination 2 * Pxy - 2 * Pwz
  have e02 : quatToMat (shepperdBranch1 R) 0 2 = R 0 2 := by
    simp [quatToMat]
    linear_combination 2 * Pxz + 2 * Pwy
  have e10 : quatToMat (shepperdBranch1 R) 1 0 = R 1 0 := by
    simp [quatToMat]
    linear_combination 2 * Pxy + 2 * Pwz
  have e11 : quatToMat (shepperdBranch1 R) 1 1 = R 1 1 := by
    simp [quatToMat]
    linear_combination Pw2 - Px2 + Py2 - Pz2
  have e12 : quatToMat (shepperdBranch1 R) 1 2 = R 1 2 := by
    simp [quatToMat]
    linear_combination 2 * Pyz - 2 * Pwx
  have e20 : quatToMat (shepperdBranch1 R) 2 0 = R 2 0 := by
    simp [quatToMat]
    linear_combination 2 * Pxz - 2 * Pwy
  have e21 : quatToMat (shepperdBranch1 R) 2 1 = R 2 1 := by
    simp [quatToMat]
    linear_combination 2 * Pyz + 2 * Pwx
  have e22 : quatToMat (shepperdBranch1 R) 2 2 = R 2 2 := by
    simp [quatToMat]
    linear_combination Pw2 - Px2 - Py2 + Pz2
  refine ⟨by linear_combination Pw2 + Px2 + Py2 + Pz2, ?_⟩
  ext i j
  fin_cases i <;> fin_cases j
  · exact e00
  · exact e01
  · exact e02
  · exact e10
  · exact e11
  · exact e12
  · exact e20
  · exact e21
  · exact e22

lemma shepperdBranch2_spec (R : Matrix (Fin 3) (Fin 3) ℝ)
    (hA : R * R.transpose = 1) (hdet : R.det = 1)
    (hS : 0 < R 2 2 - R 0 0 - R 1 1 + 1) :
    ((shepperdBranch2 R).w ^ 2 + (shepperdBranch2 R).x ^ 2 + (shepperdBranch2 R).y ^ 2 + (shepperdBranch2 R).z ^ 2 = 1) ∧
    quatToMat (shepperdBranch2 R) = R := by
  have hr2 : Real.sqrt (R 2 2 - R 0 0 - R 1 1 + 1) ^ 2 = R 2 2 - R 0 0 - R 1 1 + 1 :=
    Real.sq_sqrt (le_of_lt hS)
  have hrne : Real.sqrt (R 2 2 - R 0 0 - R 1 1 + 1) ≠ 0 :=
    ne_of_gt (Real.sqrt_pos.mpr hS)
  have hQs : (R 2 2 - R 0 0 - R 1 1 + 1) * (1 / (2 * Real.sqrt (R 2 2 - R 0 0 - R 1 1 + 1))) ^ 2 = 1 / 4 := by
    field_simp
    linear_combination -4 * hr2
  have hrs : Real.sqrt (R 2 2 - R 0 0 - R 1 1 + 1) * (1 / (2 * Real.sqrt (R 2 2 - R 0 0 - R 1 1 + 1))) = 1 / 2 := by
    field_simp
    ring
  have hT3 := so3_T3 R hA hdet
  have hT5 := so3_T5 R hA hdet
  have hT6 := so3_T6 R hA hdet
  have hT16 := so3_T16 R hA hdet
  have hT17 := so3_T17 R hA hdet
  have hT18 := so3_T18 R hA hdet
  have Pw2 : (shepperdBranch2 R).w ^ 2 = (1 + R 0 0 + R 1 1 + R 2 2) / 4 := by
    show ((R 1 0 - R 0 1) * (1 / (2 * Real.sqrt (R 2 2 - R 0 0 - R 1 1 + 1)))) ^ 2 = _
    linear_combination (1 / (2 * Real.sqrt (R 2 2 - R 0 0 - R 1 1 + 1))) ^ 2 * hT3 + (1 + R 0 0 + R 1 1 + R 2 2) * hQs
  have Px2 : (shepperdBranch2 R).x ^ 2 = (1 + R 0 0 - R 1 1 - R 2 2) / 4 := by
    show ((R 0 2 + R 2 0) * (1 / (2 * Real.sqrt (R 2 2 - R 0 0 - R 1 1 + 1)))) ^ 2 = _
    linear_combination (1 / (2 * Real.sqrt (R 2 2 - R 0 0 - R 1 1 + 1))) ^ 2 * hT5 + (1 + R 0 0 - R 1 1 - R 2 2) * hQs
  have Py2 : (shepperdBranch2 R).y ^ 2 = (1 - R 0 0 + R 1 1 - R 2 2) / 4 := by
    show ((R 1 2 + R 2 1) * (1 / (2 * Real.sqrt (R 2 2 - R 0 0 - R 1 1 + 1)))) ^ 2 = _
    linear_combination (1 / (2 * Real.sqrt (R 2 2 - R 0 0 - R 1 1 + 1))) ^ 2 * hT6 + (1 - R 0 0 + R 1 1 - R 2 2) * hQs
  have Pz2 : (shepperdBranch2 R).z ^ 2 = (1 - R 0 0 - R 1 1 + R 2 2) / 4 := by
    show (Real.sqrt (R 2 2 - R 0 0 - R 1 1 + 1) / 2) ^ 2 = _
    linear_combination hr2 / 4
  have Pwx : (shepperdBranch2 R).w * (shepperdBranch2 R).x = (R 2 1 - R 1 2) / 4 := by
    show ((R 1 0 - R 0 1) * (1 / (2 * Real.sqrt (R 2 2 - R 0 0 - R 1 1 + 1)))) * ((R 0 2 + R 2 0) * (1 / (2 * Real.sqrt (R 2 2 - R 0 0 - R 1 1 + 1)))) = _
    linear_combination (1 / (2 * Real.sqrt (R 2 2 - R 0 0 - R 1 1 + 1))) ^ 2 * hT16 + (R 2 1 - R 1 2) * hQs
  have Pwy : (shepperdBranch2 R).w * (shepperdBranch2 R).y = (R 0 2 - R 2 0) / 4 := by
    show ((R 1 0 - R 0 1) * (1 / (2 * Real.sqrt (R 2 2 - R 0 0 - R 1 1 + 1)))) * ((R 1 2 + R 2 1) * (1 / (2 * Real.sqrt (R 2 2 - R 0 0 - R 1 1 + 1)))) = _
    linear_combination (1 / (2 * Real.sqrt (R 2 2 - R 0 0 - R 1 1 + 1))) ^ 2 * hT17 + (R 0 2 - R 2 0) * hQs
  have Pwz : (shepperdBranch2 R).w * (shepperdBranch2 R).z = (R 1 0 - R 0 1) / 4 := by
    show ((R 1 0 - R 0 1) * (1 / (2 * Real.sqrt (R 2 2 - R 0 0 - R 1 1 + 1)))) * (Real.sqrt (R 2 2 - R 0 0 - R 1 1 + 1) / 2) = _
    linear_combination ((R 1 0 - R 0 1) / 2) * hrs
  have Pxy : (shepperdBranch2 R).x * (shepperdBranch2 R).y = (R 1 0 + R 0 1) / 4 := by
    show ((R 0 2 + R 2 0) * (1 / (2 * Real.sqrt (R 2 2 - R 0 0 - R 1 1 + 1)))) * ((R 1 2 + R 2 1) * (1 / (2 * Real.sqrt (R 2 2 - R 0 0 - R 1 1 + 1)))) = _
    linear_combination (1 / (2 * Real.sqrt (R 2 2 - R 0 0 - R 1 1 + 1))) ^ 2 * hT18 + (R 1 0 + R 0 1) * hQs
  have Pxz : (shepperdBranch2 R).x * (shepperdBranch2 R).z = (R 2 0 + R 0 2) / 4 := by
    show ((R 0 2 + R 2 0) * (1 / (2 * Real.sqrt (R 2 2 - R 0 0 - R 1 1 + 1)))) * (Real.sqrt (R 2 2 - R 0 0 - R 1 1 + 1) / 2) = _
    linear_combination ((R 2 0 + R 0 2) / 2) * hrs
  have Pyz : (shepperdBranch2 R).y * (shepperdBranch2 R).z = (R 2 1 + R 1 2) / 4 := by
    show ((R 1 2 + R 2 1) * (1 / (2 * Real.sqrt (R 2 2 - R 0 0 - R 1 1 + 1)))) * (Real.sqrt (R 2 2 - R 0 0 - R 1 1 + 1) / 2) = _
    linear_combination ((R 2 1 + R 1 2) / 2) * hrs
  have e00 : quatToMat (shepperdBranch2 R) 0 0 = R 0 0 := by
    simp [quatToMat]
    linear_combination Pw2 + Px2 - Py2 - Pz2
  have e01 : quatToMat (shepperdBranch2 R) 0 1 = R 0 1 := by
    simp [quatToMat]
    linear_combination 2 * Pxy - 2 * Pwz
  have e02 : quatToMat (shepperdBranch2 R) 0 2 = R 0 2 := by
    simp [quatToMat]
    linear_combination 2 * Pxz + 2 * Pwy
  have e10 : quatToMat (shepperdBranch2 R) 1 0 = R 1 0 := by
    simp [quatToMat]
    linear_combination 2 * Pxy + 2 * Pwz
  have e11 : quatToMat (shepperdBranch2 R) 1 1 = R 1 1 := by
    simp [quatToMat]
    linear_combination Pw2 - Px2 + Py2 - Pz2
  have e12 : quatToMat (shepperdBranch2 R) 1 2 = R 1 2 := by
    simp [quatToMat]
    linear_combination 2 * Pyz - 2 * Pwx
  have e20 : quatToMat (shepperdBranch2 R) 2 0 = R 2 0 := by
    simp [quatToMat]
    linear_combination 2 * Pxz - 2 * Pwy
  have e21 : quatToMat (shepperdBranch2 R) 2 1 = R 2 1 := by
    simp [quatToMat]
    linear_combination 2 * Pyz + 2 * Pwx
  have e22 : quatToMat (shepperdBranch2 R) 2 2 = R 2 2 := by
    simp [quatToMat]
    linear_combination Pw2 - Px2 - Py2 + Pz2
  refine ⟨by linear_combination Pw2 + Px2 + Py2 + Pz2, ?_⟩
  ext i j
  fin_cases i <;> fin_cases j
  · exact e00
  · exact e01
  · exact e02
  · exact e10
  · exact e11
  · exact e12
  · exact e20
  · exact e21
  · exact e22

lemma rodrigues_angleAxis_eq_quatToMat (q : Quat)
    (hq : q.w ^ 2 + q.x ^ 2 + q.y ^ 2 + q.z ^ 2 = 1) :
    rodrigues (angleAxisFromQuat q).1 (angleAxisFromQuat q).2 = quatToMat q := by
  unfold angleAxisFromQuat
  by_cases hn : Real.sqrt (q.x ^ 2 + q.y ^ 2 + q.z ^ 2) = 0
  · have hnn : (0:ℝ) ≤ q.x ^ 2 + q.y ^ 2 + q.z ^ 2 := by positivity
    have hsum0 : q.x ^ 2 + q.y ^ 2 + q.z ^ 2 = 0 := by
      have := Real.sqrt_eq_zero hnn
      exact this.mp hn
    have hx : q.x = 0 := by nlinarith [sq_nonneg q.x, sq_nonneg q.y, sq_nonneg q.z]
    have hy : q.y = 0 := by nlinarith [sq_nonneg q.x, sq_nonneg q.y, sq_nonneg q.z]
    have hz : q.z = 0 := by nlinarith [sq_nonneg q.x, sq_nonneg q.y, sq_nonneg q.z]
    simp only [if_pos hn]
    ext i j
    fin_cases i <;> fin_cases j <;>
      simp [rodrigues, quatToMat, hx, hy, hz] <;>
      linarith [hq, hsum0]
  · have hnn : (0:ℝ) ≤ q.x ^ 2 + q.y ^ 2 + q.z ^ 2 := by positivity
    have hn2 : Real.sqrt (q.x ^ 2 + q.y ^ 2 + q.z ^ 2) ^ 2 =
        q.x ^ 2 + q.y ^ 2 + q.z ^ 2 := Real.sq_sqrt hnn
    have hzC : (⟨q.w, Real.sqrt (q.x ^ 2 + q.y ^ 2 + q.z ^ 2)⟩ : ℂ) ≠ 0 := by
      intro h
      rw [Complex.ext_iff] at h
      exact hn h.2
    have habs : Complex.abs ⟨q.w, Real.sqrt (q.x ^ 2 + q.y ^ 2 + q.z ^ 2)⟩ = 1 := by
      rw [Complex.abs_apply, Complex.normSq_mk]
      have h1 : q.w * q.w + Real.sqrt (q.x ^ 2 + q.y ^ 2 + q.z ^ 2) *
          Real.sqrt (q.x ^ 2 + q.y ^ 2 + q.z ^ 2) = 1 := by
        nlinarith [hn2, hq]
      rw [h1, Real.sqrt_one]
    have hcos : Real.cos (atan2 (Real.sqrt (q.x ^ 2 + q.y ^ 2 + q.z ^ 2)) q.w) = q.w := by
      rw [atan2, Complex.cos_arg hzC, habs]
      simp
    have hsin : Real.sin (atan2 (Real.sqrt (q.x ^ 2 + q.y ^ 2 + q.z ^ 2)) q.w) =
        Real.sqrt (q.x ^ 2 + q.y ^ 2 + q.z ^ 2) := by
      rw [atan2, Complex.sin_arg, habs]
      simp
    have hcos2 : Real.cos (2 * atan2 (Real.sqrt (q.x ^ 2 + q.y ^ 2 + q.z ^ 2)) q.w) =
        2 * q.w ^ 2 - 1 := by
      rw [Real.cos_two_mul, hcos]
    have hsin2 : Real.sin (2 * atan2 (Real.sqrt (q.x ^ 2 + q.y ^ 2 + q.z ^ 2)) q.w) =
        2 * Real.sqrt (q.x ^ 2 + q.y ^ 2 + q.z ^ 2) * q.w := by
      rw [Real.sin_two_mul, hsin, hcos]
    have hSne : q.x ^ 2 + q.y ^ 2 + q.z ^ 2 ≠ 0 := by
      intro h
      exact hn (by rw [h, Real.sqrt_zero])
    simp only [if_neg hn]
    ext i j
    fin_cases i <;> fin_cases j <;>
      simp [rodrigues, quatToMat, hcos2, hsin2] <;>
      field_simp [hSne]
    · linear_combination (q.y ^ 2 + q.z ^ 2 - q.x ^ 2) * hq
    · linear_combination (-(2 * q.x * q.y * Real.sqrt (q.x ^ 2 + q.y ^ 2 + q.z ^ 2))) * hq
    · linear_combination (-(2 * q.x * q.z * Real.sqrt (q.x ^ 2 + q.y ^ 2 + q.z ^ 2))) * hq
    · linear_combination (-(2 * q.x * q.y * Real.sqrt (q.x ^ 2 + q.y ^ 2 + q.z ^ 2))) * hq
    · linear_combination (q.x ^ 2 + q.z ^ 2 - q.y ^ 2) * hq
    · linear_combination (-(2 * q.y * q.z * Real.sqrt (q.x ^ 2 + q.y ^ 2 + q.z ^ 2))) * hq
    · linear_combination (-(2 * q.x * q.z * Real.sqrt (q.x ^ 2 + q.y ^ 2 + q.z ^ 2))) * hq
    · linear_combination (-(2 * q.y * q.z * Real.sqrt (q.x ^ 2 + q.y ^ 2 + q.z ^ 2))) * hq
    · linear_combination (q.x ^ 2 + q.y ^ 2 - q.z ^ 2) * hq

lemma quaternionFromMat_spec (R : Matrix (Fin 3) (Fin 3) ℝ)
    (hA : R * R.transpose = 1) (hdet : R.det = 1) :
    ((quaternionFromMat R).w ^ 2 + (quaternionFromMat R).x ^ 2 +
      (quaternionFromMat R).y ^ 2 + (quaternionFromMat R).z ^ 2 = 1) ∧
    quatToMat (quaternionFromMat R) = R := by
  unfold quaternionFromMat
  split_ifs with ht h1 h2 h3
  · exact shepperdBranchW_spec R hA hdet (by linarith)
  · push_neg at ht
    exact shepperdBranch2_spec R hA hdet (by linarith)
  · push_neg at ht h2
    exact shepperdBranch1_spec R hA hdet (by linarith)
  · push_neg at ht h1
    exact shepperdBranch2_spec R hA hdet (by linarith)
  · push_neg at ht h1 h3
    exact shepperdBranch0_spec R hA hdet (by linarith)

lemma block33_one : block33 (1 : Matrix (Fin 4) (Fin 4) ℝ) = 1 := by
  ext i j
  fin_cases i <;> fin_cases j <;> simp [block33, Matrix.one_apply] <;> decide

/-- C7: the orthonormalization inside `convertOrbSlamPoseToKindr` is the
identity on inputs whose upper-left 3x3 block is already a rotation: when
that block is orthogonal with determinant `1`, the rotation of the output
transformation is the block itself, unchanged. -/
theorem convert_rotation_idempotent (T : Matrix (Fin 4) (Fin 4) ℝ)
    (hA : block33 T * (block33 T).transpose = 1)
    (hdet : (block33 T).det = 1) :
    (convertCore T).rotation = block33 T := by
  obtain ⟨hq, hM⟩ := quaternionFromMat_spec (block33 T) hA hdet
  show rodrigues (angleAxisFromMat (block33 T)).1 (angleAxisFromMat (block33 T)).2 = block33 T
  unfold angleAxisFromMat
  rw [rodrigues_angleAxis_eq_quatToMat (quaternionFromMat (block33 T)) hq, hM]

/-- Witness for C7 at the identity input. -/
theorem convert_rotation_idempotent_witness :
    (block33 (1 : Matrix (Fin 4) (Fin 4) ℝ) * (block33 1).transpose = 1 ∧
      (block33 (1 : Matrix (Fin 4) (Fin 4) ℝ)).det = 1) ∧
    (convertCore (1 : Matrix (Fin 4) (Fin 4) ℝ)).rotation = block33 1 := by
  have h1 : block33 (1 : Matrix (Fin 4) (Fin 4) ℝ) * (block33 1).transpose = 1 := by
    rw [block33_one]
    simp
  have h2 : (block33 (1 : Matrix (Fin 4) (Fin 4) ℝ)).det = 1 := by
    rw [block33_one]
    simp
  exact ⟨⟨h1, h2⟩, convert_rotation_idempotent 1 h1 h2⟩

end OrbSlam2
